import Mathlib

/-!
Shallow embedding of `DoclingRemoteComponent.process_files` and its nested
`_convert_document` routine (src/backend/base/langflow/components/docling/
docling_remote.py), together with theorems about the batch-conversion
behaviour: slot alignment, the poll loop's retry budget, error propagation,
and result-payload handling.

The remote server's behaviour is an oracle (`JobWorld`): the submission
response, the sequence of poll responses, the result response and the
document validator.  Response bodies are modelled only down to the fields
the code reads (`task_status`, `task_id`, `document`, `json_content`);
an `Option` at the body level models an unparsable JSON body (ValueError),
an `Option` at a field models a missing key (KeyError).  The poll loop is
written with explicit fuel since the Python loop can run unboundedly.
-/

namespace DoclingRemote

/-- The fields of a submission/poll response body that the code reads:
`task["task_status"]` and `task["task_id"]`.  `none` models a missing key. -/
structure TaskBody where
  task_status : Option String
  task_id : Option String
deriving DecidableEq

/-- The `document.json_content` field of a result body: absent key, JSON
null, or a present payload (the structured document, opaque, tagged by a
natural number). -/
inductive JsonContent where
  | absent : JsonContent
  | null : JsonContent
  | present (payload : Nat) : JsonContent
deriving DecidableEq

/-- The `document` object of a result body. -/
structure DocBody where
  json_content : JsonContent
deriving DecidableEq

/-- A result response body; `document = none` models a missing `document`
key (KeyError on `result["document"]`). -/
structure ResultBody where
  document : Option DocBody
deriving DecidableEq

/-- An HTTP response: status code plus (already decoded) body.  The body
type is instantiated with an `Option` of the parsed shape; `none` models a
body that fails JSON decoding (ValueError from `response.json()`). -/
structure HttpResponse (β : Type) where
  status_code : Nat
  body : β
deriving DecidableEq

/-- The remote server's behaviour for one job pipeline: the submission
response, the k-th poll response, the result-fetch response, and the
external `DoclingDocument.model_validate` check (true = validates). -/
structure JobWorld where
  submitResp : HttpResponse (Option TaskBody)
  pollResp : Nat → HttpResponse (Option TaskBody)
  resultResp : HttpResponse (Option ResultBody)
  validate : Nat → Bool

/-- The Python exceptions the code can raise and that `process_files`
catches and re-raises: `httpx.HTTPStatusError` from `raise_for_status`,
`KeyError` from a missing dict key, `ValueError` from JSON decoding. -/
inductive PyError where
  | httpStatusError (code : Nat) : PyError
  | keyError (key : String) : PyError
  | valueError : PyError
deriving DecidableEq

/-- The HTTP requests one pipeline issues, in order: the submission POST,
the k-th poll GET, and the result-fetch GET. -/
inductive Req where
  | submit : Req
  | poll (k : Nat) : Req
  | fetchResult : Req
deriving DecidableEq

/-- The `Data(data={"doc": doc, "file_path": str(file_path)})` record
returned on success; the validated document is kept opaque as its payload
tag. -/
structure Data where
  doc : Nat
  file_path : String
deriving DecidableEq

/-- Outcome of `_convert_document`: a normal return (`Data` or `None`), a
raised exception, or fuel exhaustion (the poll loop still running). -/
inductive Outcome where
  | ret (d : Option Data) : Outcome
  | exc (e : PyError) : Outcome
  | outOfFuel : Outcome
deriving DecidableEq

/-- Result of the poll `while` loop: normal exit with the current task
body, the `return None` after too many high-status responses, a raised
exception, or fuel exhaustion. -/
inductive LoopResult where
  | exited (task : TaskBody) : LoopResult
  | gaveUp : LoopResult
  | err (e : PyError) : LoopResult
  | outOfFuel : LoopResult
deriving DecidableEq

/-- `httpx.Response.raise_for_status` raises unless the status is 2xx. -/
def is2xx (c : Nat) : Bool := decide (200 ≤ c ∧ c < 300)

/-- The loop guard's membership test `task_status in ("success", "failure")`. -/
def isTerminal (s : String) : Bool := s == "success" || s == "failure"

/-- The poll `while` loop of `_convert_document` (lines 112-124): while the
current task's status is non-terminal, sleep, GET the poll endpoint; a
status code above 500 increments `http_failures` and gives up (returns
`None`) once it exceeds `MAX_500_RETRIES = 5`, leaving the task unchanged;
otherwise the parsed body replaces the task.  `k` indexes the poll
responses consumed so far; the second component is the trace of poll
requests issued. -/
def pollLoop (w : JobWorld) (fuel : Nat) (task : TaskBody) (failures : Nat)
    (k : Nat) : LoopResult × List Req :=
  match task.task_status with
  | none => (.err (.keyError "task_status"), [])
  | some s =>
    if isTerminal s then (.exited task, [])
    else
      match fuel with
      | 0 => (.outOfFuel, [])
      | fuel' + 1 =>
        match task.task_id with
        | none => (.err (.keyError "task_id"), [])
        | some _ =>
          if 500 < (w.pollResp k).status_code then
            if 5 < failures + 1 then (.gaveUp, [.poll k])
            else
              let r := pollLoop w fuel' task (failures + 1) (k + 1)
              (r.1, .poll k :: r.2)
          else
            match (w.pollResp k).body with
            | none => (.err .valueError, [.poll k])
            | some tnew =>
              let r := pollLoop w fuel' tnew failures (k + 1)
              (r.1, .poll k :: r.2)

/-- `_convert_document` (lines 101-139): submit, check the status, parse the
body, run the poll loop, then unconditionally fetch the result, require a
`document` key, treat a missing or null `json_content` as a logged `None`,
and validate the document.  Returns the outcome and the request trace. -/
def convertDocument (w : JobWorld) (filePath : String) (fuel : Nat) :
    Outcome × List Req :=
  if is2xx w.submitResp.status_code = false then
    (.exc (.httpStatusError w.submitResp.status_code), [.submit])
  else
    match w.submitResp.body with
    | none => (.exc .valueError, [.submit])
    | some task =>
      match pollLoop w fuel task 0 0 with
      | (.err e, tr) => (.exc e, .submit :: tr)
      | (.outOfFuel, tr) => (.outOfFuel, .submit :: tr)
      | (.gaveUp, tr) => (.ret none, .submit :: tr)
      | (.exited tfin, tr) =>
        match tfin.task_id with
        | none => (.exc (.keyError "task_id"), .submit :: tr)
        | some _ =>
          let rr := w.resultResp
          let out : Outcome :=
            if is2xx rr.status_code = false then
              .exc (.httpStatusError rr.status_code)
            else
              match rr.body with
              | none => .exc .valueError
              | some result =>
                match result.document with
                | none => .exc (.keyError "document")
                | some db =>
                  match db.json_content with
                  | .absent => .ret none
                  | .null => .ret none
                  | .present payload =>
                    if w.validate payload then
                      .ret (some ⟨payload, filePath⟩)
                    else
                      .ret none
          (out, .submit :: (tr ++ [.fetchResult]))

/-- One input item of the batch; `path = none` models `file.path is None`. -/
structure BFile where
  path : Option String
deriving DecidableEq

/-- The dispatch loop of `process_files` (lines 151-156): walk the file
list with its enumeration index `i`; a file without a path appends `none`
to `processed_data` immediately, a file with a path appends `(i, path)` to
the futures list.  Returns (initial processed_data, futures). -/
def dispatch : List BFile → Nat → List (Option Data) × List (Nat × String)
  | [], _ => ([], [])
  | f :: fs, i =>
    let r := dispatch fs (i + 1)
    match f.path with
    | none => (none :: r.1, r.2)
    | some p => (r.1, (i, p) :: r.2)

/-- Outcome of the whole batch call: the final `processed_data`, a
re-raised exception, or fuel exhaustion inside some pipeline. -/
inductive BatchOut where
  | ok (slots : List (Option Data)) : BatchOut
  | exc (e : PyError) : BatchOut
  | outOfFuel : BatchOut
deriving DecidableEq

/-- The collection loop of `process_files` (lines 158-169): for each future
in submission order, append its result to `processed_data`; an exception
from `future.result()` is caught (HTTPStatusError, RequestError, KeyError,
ValueError), logged and re-raised, aborting the batch.  `w i` is the
server's behaviour for the pipeline of input index `i`. -/
def collect (w : Nat → JobWorld) (fuel : Nat) :
    List (Nat × String) → BatchOut
  | [] => .ok []
  | (i, p) :: rest =>
    match (convertDocument (w i) p fuel).1 with
    | .ret d =>
      match collect w fuel rest with
      | .ok ds => .ok (d :: ds)
      | .exc e => .exc e
      | .outOfFuel => .outOfFuel
    | .exc e => .exc e
    | .outOfFuel => .outOfFuel

/-- `process_files` (lines 148-171): dispatch the batch, collect the
futures' results in submission order, and return the accumulated
`processed_data` (the `none` slots appended at dispatch time followed by
the pipeline outcomes). -/
def process_files (w : Nat → JobWorld) (fuel : Nat) (files : List BFile) :
    BatchOut :=
  let d := dispatch files 0
  match collect w fuel d.2 with
  | .ok ds => .ok (d.1 ++ ds)
  | .exc e => .exc e
  | .outOfFuel => .outOfFuel

/-- Modelled from the spec: `rollup_data` (`BaseFileComponent.rollup_data`,
called on line 171 but defined outside this repository's sources) pairs the
batch's input files with the slots of `processed_data` positionally, per the
spec's ResultSlots: "an ordered sequence with one slot per input item,
index-aligned". -/
def rollup_data (files : List BFile) (slots : List (Option Data)) :
    List (BFile × Option Data) :=
  files.zip slots

/-! ## Auxiliary definitions for the proofs -/

/-- The trace of poll requests `poll k, poll (k+1), …` of length `m`. -/
def pollTrace (k m : Nat) : List Req :=
  match m with
  | 0 => []
  | m' + 1 => .poll k :: pollTrace (k + 1) m'

/-- Number of poll responses with status code above 500 among indices
`k, …, k+m-1`. -/
def errCnt (w : JobWorld) (k m : Nat) : Nat :=
  match m with
  | 0 => 0
  | m' + 1 =>
    (if 500 < (w.pollResp k).status_code then 1 else 0) + errCnt w (k + 1) m'

/-- A task body on which the loop guard keeps polling: a present,
non-terminal `task_status` and a present `task_id`. -/
def goodNonTerminal (t : TaskBody) : Bool :=
  (match t.task_status with
   | some s => !isTerminal s
   | none => false) && t.task_id.isSome

/-- A task body whose `task_status` is present and terminal. -/
def goodTerminalBody (t : TaskBody) : Bool :=
  match t.task_status with
  | some s => isTerminal s
  | none => false

/-- Whether an outcome is a normal return (`Data` or `None`), as opposed
to a raised exception. -/
def isRetOutcome : Outcome → Bool
  | .ret _ => true
  | _ => false

/-! ## Concrete worlds used as witnesses and counterexamples -/

/-- A submission/poll body with status `pending`. -/
def okTask : TaskBody := ⟨some "pending", some "t1"⟩

/-- A body with terminal status `success`. -/
def successTask : TaskBody := ⟨some "success", some "t1"⟩

/-- A body with terminal status `failure`. -/
def failureTask : TaskBody := ⟨some "failure", some "t1"⟩

/-- A server that accepts the job, reports success on the first poll and
returns a valid document with payload 7. -/
def goodWorld : JobWorld :=
  { submitResp := ⟨200, some okTask⟩
    pollResp := fun _ => ⟨200, some successTask⟩
    resultResp := ⟨200, some ⟨some ⟨.present 7⟩⟩⟩
    validate := fun _ => true }

/-- Every pipeline of the batch talks to `goodWorld`. -/
def W1 : Nat → JobWorld := fun _ => goodWorld

/-- A server that reports terminal status `failure` on the first poll. -/
def failWorld : JobWorld :=
  { submitResp := ⟨200, some okTask⟩
    pollResp := fun _ => ⟨200, some failureTask⟩
    resultResp := ⟨200, some ⟨some ⟨.absent⟩⟩⟩
    validate := fun _ => true }

/-- A server whose submission response already carries terminal status
`success`. -/
def immediateWorld : JobWorld :=
  { submitResp := ⟨200, some successTask⟩
    pollResp := fun _ => ⟨200, some successTask⟩
    resultResp := ⟨200, some ⟨some ⟨.present 7⟩⟩⟩
    validate := fun _ => true }

/-- A server whose every poll response has status code 503. -/
def errWorld : JobWorld :=
  { submitResp := ⟨200, some okTask⟩
    pollResp := fun _ => ⟨503, none⟩
    resultResp := ⟨200, some ⟨some ⟨.present 7⟩⟩⟩
    validate := fun _ => true }

/-- A server that alternates qualifying 503 errors (even poll indices up
to 10) with normal `pending` responses and reports terminal success from
poll index 11 onwards: consecutive errors never exceed one, but the
cumulative count reaches six. -/
def altWorld : JobWorld :=
  { submitResp := ⟨200, some okTask⟩
    pollResp := fun k =>
      if k % 2 = 0 ∧ k ≤ 10 then ⟨503, none⟩
      else if k ≤ 9 then ⟨200, some okTask⟩
      else ⟨200, some successTask⟩
    resultResp := ⟨200, some ⟨some ⟨.present 7⟩⟩⟩
    validate := fun _ => true }

/-- A server that alternates one 503 error with one normal response and
then reports terminal success on the third poll. -/
def altSmallWorld : JobWorld :=
  { submitResp := ⟨200, some okTask⟩
    pollResp := fun k =>
      if k = 0 then ⟨503, none⟩
      else if k = 1 then ⟨200, some okTask⟩
      else ⟨200, some successTask⟩
    resultResp := ⟨200, some ⟨some ⟨.present 7⟩⟩⟩
    validate := fun _ => true }

/-- A server that succeeds but returns a result whose
`document.json_content` is JSON null. -/
def skipWorld : JobWorld :=
  { submitResp := ⟨200, some okTask⟩
    pollResp := fun _ => ⟨200, some successTask⟩
    resultResp := ⟨200, some ⟨some ⟨.null⟩⟩⟩
    validate := fun _ => true }

/-- A server that rejects the submission with a 500 response. -/
def badSubmitWorld : JobWorld :=
  { submitResp := ⟨500, none⟩
    pollResp := fun _ => ⟨200, none⟩
    resultResp := ⟨200, none⟩
    validate := fun _ => true }

/-- A server that succeeds but whose result body has no `document` key. -/
def nodocWorld : JobWorld :=
  { submitResp := ⟨200, some okTask⟩
    pollResp := fun _ => ⟨200, some successTask⟩
    resultResp := ⟨200, some ⟨none⟩⟩
    validate := fun _ => true }

/-- Batch worlds for the error-propagation witness: pipeline 0 is skipped
(null `json_content`), pipeline 1 hits a 500 on submission. -/
def Wmix : Nat → JobWorld := fun i => if i = 0 then skipWorld else badSubmitWorld

/-! ## Structure lemmas about the poll loop -/

/-- Unpacking `goodNonTerminal`. -/
lemma goodNonTerminal_elim {t : TaskBody} (h : goodNonTerminal t = true) :
    ∃ s id0, t.task_status = some s ∧ isTerminal s = false ∧
      t.task_id = some id0 := by
  rcases hs : t.task_status with _ | s
  · simp [goodNonTerminal, hs] at h
  · rcases hid : t.task_id with _ | id0
    · simp [goodNonTerminal, hs, hid] at h
    · simp only [goodNonTerminal, hs, hid, Option.isSome_some, Bool.and_true] at h
      exact ⟨s, id0, rfl, by simpa using h, rfl⟩

/-- Unpacking `goodTerminalBody`. -/
lemma goodTerminalBody_elim {t : TaskBody} (h : goodTerminalBody t = true) :
    ∃ s, t.task_status = some s ∧ isTerminal s = true := by
  rcases hs : t.task_status with _ | s
  · simp [goodTerminalBody, hs] at h
  · exact ⟨s, rfl, by simpa [goodTerminalBody, hs] using h⟩

/-- The loop guard sees a terminal status and exits at once, with no poll
request, whatever the fuel, budget or position. -/
lemma pollLoop_terminal (w : JobWorld) (fuel : Nat) (task : TaskBody)
    (failures k : Nat) {s : String} (hs : task.task_status = some s)
    (ht : isTerminal s = true) :
    pollLoop w fuel task failures k = (.exited task, []) := by
  cases fuel <;> simp [pollLoop, hs, ht]

/-- With a non-terminal status, a present `task_id` and at least one unit
of fuel, the loop issues the poll request at the current index first. -/
lemma pollLoop_trace_head (w : JobWorld) (fuel : Nat) (task : TaskBody)
    (failures k : Nat) {s id0 : String} (hs : task.task_status = some s)
    (hns : isTerminal s = false) (hid : task.task_id = some id0) :
    ∃ rest, (pollLoop w (fuel + 1) task failures k).2 = .poll k :: rest := by
  by_cases h1 : 500 < (w.pollResp k).status_code
  · by_cases h2 : 5 < failures + 1
    · exact ⟨[], by simp [pollLoop, hs, hns, hid, h1, h2]⟩
    · exact ⟨(pollLoop w fuel task (failures + 1) (k + 1)).2,
        by simp [pollLoop, hs, hns, hid, h1, h2]⟩
  · rcases hb : (w.pollResp k).body with _ | tnew
    · exact ⟨[], by simp [pollLoop, hs, hns, hid, h1, hb]⟩
    · exact ⟨(pollLoop w fuel tnew failures (k + 1)).2,
        by simp [pollLoop, hs, hns, hid, h1, hb]⟩

/-- Any request the poll loop issues appears in the trace of the full
`_convert_document` pipeline (given a parsed 2xx submission). -/
lemma mem_trace_of_mem_poll (w : JobWorld) (p : String) (fuel : Nat)
    (task : TaskBody) (hsub : is2xx w.submitResp.status_code = true)
    (hbody : w.submitResp.body = some task) {x : Req}
    (hx : x ∈ (pollLoop w fuel task 0 0).2) :
    x ∈ (convertDocument w p fuel).2 := by
  rcases hpl : pollLoop w fuel task 0 0 with ⟨res, tr⟩
  rw [hpl] at hx
  cases res with
  | exited tfin =>
    rcases hid : tfin.task_id with _ | tid
    · simp [convertDocument, hsub, hbody, hpl, hid, hx]
    · simp [convertDocument, hsub, hbody, hpl, hid, hx]
  | gaveUp => simp [convertDocument, hsub, hbody, hpl, hx]
  | err e => simp [convertDocument, hsub, hbody, hpl, hx]
  | outOfFuel => simp [convertDocument, hsub, hbody, hpl, hx]

/-- A run of `m ≥ 1` consecutive poll responses with status above 500,
starting with `failures + m = 6`, makes the loop give up exactly after the
`m`-th of them, leaving the task unchanged throughout. -/
lemma pollLoop_err_run (w : JobWorld) (task : TaskBody) {s id0 : String}
    (hs : task.task_status = some s) (hns : isTerminal s = false)
    (hid : task.task_id = some id0) :
    ∀ (m k failures fuel : Nat), 1 ≤ m → failures + m = 6 → m ≤ fuel →
      (∀ j, j < m → 500 < (w.pollResp (k + j)).status_code) →
      pollLoop w fuel task failures k = (.gaveUp, pollTrace k m) := by
  intro m
  induction m with
  | zero => intro k failures fuel h1; omega
  | succ m ih =>
    intro k failures fuel _ hsum hfuel herr
    rcases fuel with _ | f
    · omega
    have h0 : 500 < (w.pollResp k).status_code := by
      simpa using herr 0 (by omega)
    rcases m with _ | m'
    · have h6 : 5 < failures + 1 := by omega
      simp [pollLoop, hs, hns, hid, h0, h6, pollTrace]
    · have h5 : ¬ 5 < failures + 1 := by omega
      have hrec := ih (k + 1) (failures + 1) f (by omega) (by omega) (by omega)
        (fun j hj => by
          have := herr (j + 1) (by omega)
          simpa [Nat.add_assoc, Nat.add_comm 1 j] using this)
      simp [pollLoop, hs, hns, hid, h0, h5, hrec, pollTrace]

/-- If every low-status poll response before index `k+m` parses to a
non-terminal task with `task_id`, the number of high-status responses in
that window keeps the budget within bounds, and the response at `k+m` is a
low-status parsable terminal body, then the loop exits with that body. -/
lemma pollLoop_reaches (w : JobWorld) :
    ∀ (m k failures fuel : Nat) (task b : TaskBody),
      goodNonTerminal task = true →
      (∀ j, k ≤ j → j < k + m → (w.pollResp j).status_code ≤ 500 →
        ∃ t, (w.pollResp j).body = some t ∧ goodNonTerminal t = true) →
      failures + errCnt w k m ≤ 5 →
      (w.pollResp (k + m)).status_code ≤ 500 →
      (w.pollResp (k + m)).body = some b →
      goodTerminalBody b = true →
      m + 1 ≤ fuel →
      (pollLoop w fuel task failures k).1 = .exited b := by
  intro m
  induction m with
  | zero =>
    intro k failures fuel task b htask hmid hbud hlow hb hterm hfuel
    rcases fuel with _ | f
    · omega
    obtain ⟨s, id0, hs, hns, hid⟩ := goodNonTerminal_elim htask
    obtain ⟨s2, hs2, ht2⟩ := goodTerminalBody_elim hterm
    have hnot : ¬ 500 < (w.pollResp k).status_code := by
      simpa using Nat.not_lt.mpr (by simpa using hlow)
    have hbk : (w.pollResp k).body = some b := by simpa using hb
    have hfin := pollLoop_terminal w f b failures (k + 1) hs2 ht2
    simp [pollLoop, hs, hns, hid, hnot, hbk, hfin]
  | succ m ih =>
    intro k failures fuel task b htask hmid hbud hlow hb hterm hfuel
    rcases fuel with _ | f
    · omega
    obtain ⟨s, id0, hs, hns, hid⟩ := goodNonTerminal_elim htask
    by_cases h1 : 500 < (w.pollResp k).status_code
    · have hcnt : errCnt w k (m + 1) = 1 + errCnt w (k + 1) m := by
        simp [errCnt, h1]
      have h5 : ¬ 5 < failures + 1 := by omega
      have hrec := ih (k + 1) (failures + 1) f task b htask
        (fun j hj1 hj2 => hmid j (by omega) (by omega))
        (by omega)
        (by simpa [Nat.add_assoc, Nat.add_comm 1 m] using hlow)
        (by simpa [Nat.add_assoc, Nat.add_comm 1 m] using hb)
        hterm (by omega)
      simp [pollLoop, hs, hns, hid, h1, h5, hrec]
    · obtain ⟨t, hbk, htg⟩ := hmid k (by omega) (by omega) (by omega)
      have hcnt : errCnt w k (m + 1) = errCnt w (k + 1) m := by
        simp [errCnt, h1]
      have hrec := ih (k + 1) failures f t b htg
        (fun j hj1 hj2 => hmid j (by omega) (by omega))
        (by omega)
        (by simpa [Nat.add_assoc, Nat.add_comm 1 m] using hlow)
        (by simpa [Nat.add_assoc, Nat.add_comm 1 m] using hb)
        hterm (by omega)
      simp [pollLoop, hs, hns, hid, h1, hbk, hrec]

/-! ## Structure lemmas about dispatch and collection -/

/-- The dispatch loop keeps one entry per input: the `none` slots it
appends plus the futures it starts add up to the batch size. -/
lemma dispatch_lengths :
    ∀ (files : List BFile) (i : Nat),
      (dispatch files i).1.length + (dispatch files i).2.length =
        files.length := by
  intro files
  induction files with
  | nil => intro i; simp [dispatch]
  | cons f fs ih =>
    intro i
    have h := ih (i + 1)
    rcases hp : f.path with _ | p
    · simp only [dispatch, hp, List.length_cons]
      simpa using by omega
    · simp only [dispatch, hp, List.length_cons]
      simpa using by omega

/-- A future `(i, p)` can only come from the input at offset `i - i0`
whose path is `some p`. -/
lemma dispatch_mem :
    ∀ (files : List BFile) (i0 i : Nat) (p : String),
      (i, p) ∈ (dispatch files i0).2 →
      ∃ j, ∃ hj : j < files.length,
        i0 + j = i ∧ (files.get ⟨j, hj⟩).path = some p := by
  intro files
  induction files with
  | nil => intro i0 i p h; simp [dispatch] at h
  | cons f fs ih =>
    intro i0 i p h
    rcases hp : f.path with _ | q
    · rw [show dispatch (f :: fs) i0 =
          (none :: (dispatch fs (i0 + 1)).1, (dispatch fs (i0 + 1)).2) from
          by simp [dispatch, hp]] at h
      obtain ⟨j, hj, hij, hjp⟩ := ih (i0 + 1) i p h
      exact ⟨j + 1, by simpa using Nat.succ_lt_succ hj, by omega, by simpa using hjp⟩
    · rw [show dispatch (f :: fs) i0 =
          ((dispatch fs (i0 + 1)).1, (i0, q) :: (dispatch fs (i0 + 1)).2) from
          by simp [dispatch, hp]] at h
      rcases List.mem_cons.mp h with heq | hmem
      · injection heq with h1 h2
        exact ⟨0, by simp, by omega, by simp [hp, h2]⟩
      · obtain ⟨j, hj, hij, hjp⟩ := ih (i0 + 1) i p hmem
        exact ⟨j + 1, by simpa using Nat.succ_lt_succ hj, by omega, by simpa using hjp⟩

/-- An input without a path contributes a `none` entry to the slots the
dispatch loop appends. -/
lemma dispatch_none_mem :
    ∀ (files : List BFile) (i0 j : Nat) (hj : j < files.length),
      (files.get ⟨j, hj⟩).path = none → none ∈ (dispatch files i0).1 := by
  intro files
  induction files with
  | nil => intro i0 j hj; exact absurd hj (by simp)
  | cons f fs ih =>
    intro i0 j hj hpath
    rcases j with _ | j'
    · have : f.path = none := by simpa using hpath
      simp [dispatch, this]
    · have hj' : j' < fs.length := by simpa using Nat.lt_of_succ_lt_succ hj
      have hmem := ih (i0 + 1) j' hj' (by simpa using hpath)
      rcases hp : f.path with _ | q
      · simp [dispatch, hp, hmem]
      · simp [dispatch, hp, hmem]

/-- If the first `j` futures return normally and the `j`-th raises, the
collection loop re-raises that error. -/
lemma collect_exc (w : Nat → JobWorld) (fuel : Nat) :
    ∀ (L : List (Nat × String)) (j : Nat) (hj : j < L.length) (e : PyError),
      (∀ i (hi : i < j),
        isRetOutcome (convertDocument (w (L.get ⟨i, hi.trans hj⟩).1)
          (L.get ⟨i, hi.trans hj⟩).2 fuel).1 = true) →
      (convertDocument (w (L.get ⟨j, hj⟩).1) (L.get ⟨j, hj⟩).2 fuel).1 =
        .exc e →
      collect w fuel L = .exc e := by
  intro L
  induction L with
  | nil => intro j hj; simp at hj
  | cons hd tl ih =>
    intro j hj e hpre hexc
    rcases j with _ | j'
    · rcases hd with ⟨i1, p1⟩
      simp only [List.get] at hexc
      simp [collect, hexc]
    · rcases hd with ⟨i1, p1⟩
      have hhd := hpre 0 (Nat.succ_pos j')
      simp only [List.get] at hhd
      rcases hout : (convertDocument (w i1) p1 fuel).1 with d | e2 | _
      · have hj' : j' < tl.length := by simpa using Nat.lt_of_succ_lt_succ hj
        have hrec := ih j' hj' e
          (fun i hi => by
            have := hpre (i + 1) (Nat.succ_lt_succ hi)
            simpa using this)
          (by simpa using hexc)
        simp [collect, hout, hrec]
      · rw [hout] at hhd; simp [isRetOutcome] at hhd
      · rw [hout] at hhd; simp [isRetOutcome] at hhd

/-- If every future returns normally, the collection loop returns one slot
per future. -/
lemma collect_ok (w : Nat → JobWorld) (fuel : Nat) :
    ∀ (L : List (Nat × String)),
      (∀ i (hi : i < L.length),
        isRetOutcome (convertDocument (w (L.get ⟨i, hi⟩).1)
          (L.get ⟨i, hi⟩).2 fuel).1 = true) →
      ∃ ds, collect w fuel L = .ok ds ∧ ds.length = L.length := by
  intro L
  induction L with
  | nil => intro _; exact ⟨[], by simp [collect]⟩
  | cons hd tl ih =>
    intro hall
    rcases hd with ⟨i1, p1⟩
    have hhd := hall 0 (Nat.succ_pos tl.length)
    simp only [List.get] at hhd
    rcases hout : (convertDocument (w i1) p1 fuel).1 with d | e2 | _
    · obtain ⟨ds, hds, hlen⟩ := ih (fun i hi => by
        have := hall (i + 1) (Nat.succ_lt_succ hi)
        simpa using this)
      exact ⟨d :: ds, by simp [collect, hout, hds], by simp [hlen]⟩
    · rw [hout] at hhd; simp [isRetOutcome] at hhd
    · rw [hout] at hhd; simp [isRetOutcome] at hhd

/-! ## Claims -/

/-- Claim C1 (code bug, evaluation at the failing input): in the batch
`[file with path "a", file with no path]` against a server that converts
the first file successfully, the pipeline of input 0 yields the converted
document, yet `process_files` returns the absent slot at index 0 and input
0's converted result at index 1: the `none` slot is appended during
dispatch and the pipeline results only afterwards, so the slots are not
positionally aligned with the inputs (the collection loop ignores the
stored index).  The spec-modelled `rollup_data` pairs them positionally,
so the no-path input receives input 0's document. -/
theorem slots_misaligned_eval :
    (convertDocument (W1 0) "a" 10).1 = .ret (some ⟨7, "a"⟩) ∧
    process_files W1 10 [⟨some "a"⟩, ⟨none⟩] = .ok [none, some ⟨7, "a"⟩] ∧
    rollup_data [⟨some "a"⟩, ⟨none⟩] [none, some ⟨7, "a"⟩] =
      [(⟨some "a"⟩, none), (⟨none⟩, some ⟨7, "a"⟩)] := by
  refine ⟨by decide, by decide, by decide⟩

/-- Claim C2, counterexample to the claim as stated: in `failWorld` the
poll loop ends with terminal status `failure`, and yet the request trace
of the pipeline contains the result fetch — the code issues the
`/result/{task_id}` GET unconditionally after the loop. -/
theorem failure_fetch_cex :
    (pollLoop failWorld 10 okTask 0 0).1 = .exited failureTask ∧
    failureTask.task_status = some "failure" ∧
    (convertDocument failWorld "a" 10).2 =
      [Req.submit, Req.poll 0, Req.fetchResult] := by
  refine ⟨by decide, rfl, by decide⟩

/-- Claim C2 as amended: for every job whose poll loop ends with terminal
status `failure` (with a `task_id` present), the result fetch IS issued,
exactly as for `success` — the fetch follows the loop unconditionally and
the outcome is then determined by the result response. -/
theorem failure_terminal_still_fetches (w : JobWorld) (p : String)
    (fuel : Nat) (task tfin : TaskBody) (tr : List Req) (tid : String)
    (hsub : is2xx w.submitResp.status_code = true)
    (hbody : w.submitResp.body = some task)
    (hloop : pollLoop w fuel task 0 0 = (.exited tfin, tr))
    (hfail : tfin.task_status = some "failure")
    (hid : tfin.task_id = some tid) :
    (convertDocument w p fuel).2 = .submit :: (tr ++ [.fetchResult]) := by
  simp [convertDocument, hsub, hbody, hloop, hid]

/-- Witness for the amended claim C2 at `failWorld`. -/
theorem failure_terminal_still_fetches_witness :
    (convertDocument failWorld "a" 10).2 =
      .submit :: ([Req.poll 0] ++ [Req.fetchResult]) :=
  failure_terminal_still_fetches failWorld "a" 10 okTask failureTask
    [Req.poll 0] "t1" (by decide) rfl (by decide) rfl rfl

/-- Claim C3, counterexample to the claim as stated: in `altWorld` the
poll responses alternate one qualifying 503 error with one normal
response, so no two consecutive responses qualify (checked over the
consumed window), and from poll index 11 on the server reports terminal
success; yet the pipeline yields a Skipped outcome (`None`) without ever
reaching the terminal state (no result fetch), because the retry counter
is cumulative and never resets: the 6th overall error exhausts it. -/
theorem alternating_budget_cex :
    ((List.range 12).all (fun k =>
      !(decide (500 < (altWorld.pollResp k).status_code) &&
        decide (500 < (altWorld.pollResp (k + 1)).status_code))) = true) ∧
    (altWorld.pollResp 11).body = some successTask ∧
    isTerminal "success" = true ∧
    (convertDocument altWorld "a" 100).1 = .ret none ∧
    Req.fetchResult ∉ (convertDocument altWorld "a" 100).2 := by
  refine ⟨by decide, by decide, rfl, by decide, by decide⟩

/-- Claim C3 as amended: if the total (cumulative — the counter never
resets) number of qualifying error responses before the terminal response
is at most the configured maximum (5), and every normal response up to
that point reports a non-terminal status with a `task_id`, then the poll
loop reaches the terminal state rather than giving up. -/
theorem cumulative_budget_reaches_terminal (w : JobWorld) (n fuel : Nat)
    (task b : TaskBody)
    (htask : goodNonTerminal task = true)
    (hmid : ∀ j, j < n → (w.pollResp j).status_code ≤ 500 →
      ∃ t, (w.pollResp j).body = some t ∧ goodNonTerminal t = true)
    (hbudget : errCnt w 0 n ≤ 5)
    (hlow : (w.pollResp n).status_code ≤ 500)
    (hb : (w.pollResp n).body = some b)
    (hterm : goodTerminalBody b = true)
    (hf : n + 1 ≤ fuel) :
    (pollLoop w fuel task 0 0).1 = .exited b :=
  pollLoop_reaches w n 0 0 fuel task b htask
    (fun j _ hj2 => hmid j (by simpa using hj2)) (by simpa using hbudget)
    (by simpa using hlow) (by simpa using hb) hterm hf

/-- Witness for the amended claim C3 at `altSmallWorld` (one qualifying
error, one normal response, then terminal success). -/
theorem cumulative_budget_reaches_terminal_witness :
    (pollLoop altSmallWorld 3 okTask 0 0).1 = .exited successTask :=
  cumulative_budget_reaches_terminal altSmallWorld 2 3 okTask successTask
    (by decide)
    (by
      intro j hj hle
      interval_cases j
      · exact absurd hle (by decide)
      · exact ⟨okTask, rfl, by decide⟩)
    (by decide) (by decide) rfl (by decide) (by omega)

/-- Claim C4: a job whose first six poll responses all have status codes
above 500 ends with a Skipped outcome (`None`): the budget (max 5) is
exceeded on the sixth, exactly six poll requests are issued and no result
fetch, and the recorded job status is irrelevant — the error responses'
bodies are completely unconstrained, so none of them changes the task. -/
theorem retry_budget_exhausted (w : JobWorld) (p : String) (fuel : Nat)
    (task : TaskBody) (s id0 : String)
    (hsub : is2xx w.submitResp.status_code = true)
    (hbody : w.submitResp.body = some task)
    (hs : task.task_status = some s) (hns : isTerminal s = false)
    (hid : task.task_id = some id0)
    (herr : ∀ j, j < 6 → 500 < (w.pollResp j).status_code)
    (hf : 6 ≤ fuel) :
    convertDocument w p fuel =
      (.ret none,
       [.submit, .poll 0, .poll 1, .poll 2, .poll 3, .poll 4, .poll 5]) := by
  have hrun := pollLoop_err_run w task hs hns hid 6 0 0 fuel (by omega)
    (by omega) hf (fun j hj => by simpa using herr j hj)
  have htr : pollTrace 0 6 =
      [Req.poll 0, .poll 1, .poll 2, .poll 3, .poll 4, .poll 5] := by decide
  rw [htr] at hrun
  simp [convertDocument, hsub, hbody, hrun]

/-- Witness for claim C4 at `errWorld` (every poll response is a 503). -/
theorem retry_budget_exhausted_witness :
    convertDocument errWorld "a" 10 =
      (.ret none,
       [.submit, .poll 0, .poll 1, .poll 2, .poll 3, .poll 4, .poll 5]) :=
  retry_budget_exhausted errWorld "a" 10 okTask "pending" "t1" (by decide)
    rfl rfl rfl rfl (by decide) (by omega)

/-- Claim C5: a transport or protocol error (`HTTPStatusError`,
`KeyError`, `ValueError`) raised by any pipeline is fatal to the whole
batch call — `process_files` re-raises the first one, even when earlier
pipelines returned Skipped (`None`) outcomes — while a batch in which
every pipeline returns normally (converted or Skipped) produces one slot
per input without aborting. -/
theorem batch_error_propagation (w : Nat → JobWorld) (fuel : Nat)
    (files : List BFile) :
    (∀ (j : Nat) (e : PyError) (hj : j < (dispatch files 0).2.length),
      (∀ i (hi : i < j),
        isRetOutcome (convertDocument
          (w ((dispatch files 0).2.get ⟨i, hi.trans hj⟩).1)
          ((dispatch files 0).2.get ⟨i, hi.trans hj⟩).2 fuel).1 = true) →
      (convertDocument (w ((dispatch files 0).2.get ⟨j, hj⟩).1)
        ((dispatch files 0).2.get ⟨j, hj⟩).2 fuel).1 = .exc e →
      process_files w fuel files = .exc e) ∧
    ((∀ i (hi : i < (dispatch files 0).2.length),
        isRetOutcome (convertDocument
          (w ((dispatch files 0).2.get ⟨i, hi⟩).1)
          ((dispatch files 0).2.get ⟨i, hi⟩).2 fuel).1 = true) →
      ∃ slots, process_files w fuel files = .ok slots ∧
        slots.length = files.length) := by
  constructor
  · intro j e hj hpre hexc
    have hcol := collect_exc w fuel (dispatch files 0).2 j hj e hpre hexc
    simp [process_files, hcol]
  · intro hall
    obtain ⟨ds, hds, hlen⟩ := collect_ok w fuel (dispatch files 0).2 hall
    refine ⟨(dispatch files 0).1 ++ ds, by simp [process_files, hds], ?_⟩
    have hL := dispatch_lengths files 0
    simp [hlen]
    omega

/-- Witness for claim C5: pipeline 0 is Skipped (null `json_content`) and
pipeline 1 hits a 500 on submission — the batch re-raises the 500. -/
theorem batch_error_propagation_witness :
    process_files Wmix 10 [⟨some "a"⟩, ⟨some "b"⟩] =
      .exc (.httpStatusError 500) :=
  (batch_error_propagation Wmix 10 [⟨some "a"⟩, ⟨some "b"⟩]).1 1
    (.httpStatusError 500) (by decide) (by decide) (by decide)

/-- Claim C6: a job that reaches terminal status `success` but whose
fetched result has a `document` object with `json_content` absent or null
yields a Skipped outcome (`None`), not an error. -/
theorem success_missing_json_content_skipped (w : JobWorld) (p : String)
    (fuel : Nat) (task tfin : TaskBody) (tr : List Req) (tid : String)
    (r : ResultBody) (db : DocBody)
    (hsub : is2xx w.submitResp.status_code = true)
    (hbody : w.submitResp.body = some task)
    (hloop : pollLoop w fuel task 0 0 = (.exited tfin, tr))
    (hstat : tfin.task_status = some "success")
    (hid : tfin.task_id = some tid)
    (hr2 : is2xx w.resultResp.status_code = true)
    (hrb : w.resultResp.body = some r)
    (hdoc : r.document = some db)
    (hjc : db.json_content = .absent ∨ db.json_content = .null) :
    (convertDocument w p fuel).1 = .ret none := by
  rcases hjc with h | h <;>
    simp [convertDocument, hsub, hbody, hloop, hid, hr2, hrb, hdoc, h]

/-- Witness for claim C6 at `skipWorld` (null `json_content`). -/
theorem success_missing_json_content_skipped_witness :
    (convertDocument skipWorld "a" 10).1 = .ret none :=
  success_missing_json_content_skipped skipWorld "a" 10 okTask successTask
    [Req.poll 0] "t1" ⟨some ⟨.null⟩⟩ ⟨.null⟩ (by decide) rfl (by decide)
    rfl rfl (by decide) rfl rfl (Or.inr rfl)

/-- Claim C7: an input whose path is `None` never enters the futures list
(no pipeline is started, hence no submission request is issued for it),
the dispatch loop records an absent slot for it, and dispatch keeps one
entry per input overall. -/
theorem no_path_no_pipeline (files : List BFile) (i : Nat) (p : String)
    (hi : i < files.length) (hpath : (files.get ⟨i, hi⟩).path = none) :
    ((i, p) ∉ (dispatch files 0).2) ∧ none ∈ (dispatch files 0).1 ∧
      (dispatch files 0).1.length + (dispatch files 0).2.length =
        files.length := by
  refine ⟨?_, dispatch_none_mem files 0 i hi hpath, dispatch_lengths files 0⟩
  intro hmem
  obtain ⟨j, hj, hij, hjp⟩ := dispatch_mem files 0 i p hmem
  have hji : j = i := by omega
  subst hji
  have h2 : (files.get ⟨j, hi⟩).path = some p := hjp
  rw [hpath] at h2
  exact Option.noConfusion h2

/-- Witness for claim C7 at `[file with path "a", file with no path]`. -/
theorem no_path_no_pipeline_witness :
    ((1, "b") ∉ (dispatch [⟨some "a"⟩, ⟨none⟩] 0).2) ∧
      none ∈ (dispatch [⟨some "a"⟩, ⟨none⟩] 0).1 ∧
      (dispatch [⟨some "a"⟩, ⟨none⟩] 0).1.length +
        (dispatch [⟨some "a"⟩, ⟨none⟩] 0).2.length =
        ([⟨some "a"⟩, ⟨none⟩] : List BFile).length :=
  no_path_no_pipeline [⟨some "a"⟩, ⟨none⟩] 1 "b" (by decide) rfl

/-- Claim C8, counterexample to the claim as stated: in `immediateWorld`
the submission succeeds (2xx, parsable body) but carries terminal
`task_status` `success`, and the pipeline performs zero wait-and-poll
cycles — the trace goes straight from the submission to the result
fetch. -/
theorem submit_terminal_skips_polling_cex :
    is2xx immediateWorld.submitResp.status_code = true ∧
    immediateWorld.submitResp.body = some successTask ∧
    successTask.task_status = some "success" ∧
    (convertDocument immediateWorld "a" 10).2 =
      [Req.submit, Req.fetchResult] := by
  refine ⟨by decide, rfl, rfl, by decide⟩

/-- Claim C8 as amended: after a successful submission the pipeline enters
the poll loop unconditionally, but the loop guard consults the
`task_status` of the submission response first: if it is already terminal
no wait-and-poll cycle is performed, and only when it is non-terminal
(with a `task_id` present) is at least one poll issued. -/
theorem poll_gated_on_submission_status (w : JobWorld) (p : String)
    (fuel : Nat) (task : TaskBody) (s : String)
    (hsub : is2xx w.submitResp.status_code = true)
    (hbody : w.submitResp.body = some task)
    (hs : task.task_status = some s) :
    (isTerminal s = true → ∀ k, Req.poll k ∉ (convertDocument w p fuel).2) ∧
    (isTerminal s = false → ∀ id0, task.task_id = some id0 → 1 ≤ fuel →
      Req.poll 0 ∈ (convertDocument w p fuel).2) := by
  constructor
  · intro ht k
    have hterm := pollLoop_terminal w fuel task 0 0 hs ht
    rcases hid : task.task_id with _ | tid
    · simp [convertDocument, hsub, hbody, hterm, hid]
    · simp [convertDocument, hsub, hbody, hterm, hid]
  · intro hns id0 hid hf
    obtain ⟨f, rfl⟩ : ∃ f, fuel = f + 1 := ⟨fuel - 1, by omega⟩
    obtain ⟨rest, hrest⟩ := pollLoop_trace_head w f task 0 0 hs hns hid
    exact mem_trace_of_mem_poll w p (f + 1) task hsub hbody
      (by rw [hrest]; exact List.mem_cons_self _ _)

/-- Witness for the amended claim C8 at `immediateWorld`. -/
theorem poll_gated_on_submission_status_witness :
    Req.poll 0 ∉ (convertDocument immediateWorld "a" 10).2 :=
  (poll_gated_on_submission_status immediateWorld "a" 10 successTask
    "success" (by decide) rfl rfl).1 rfl 0

/-- Claim C10: a job whose result fetch returns 2xx with parsable JSON
lacking the `document` key raises a `KeyError` (fatal: `process_files`
re-raises it, aborting the batch, shown here for the singleton batch)
rather than yielding a Skipped slot. -/
theorem missing_document_key_raises (w : JobWorld) (p : String) (fuel : Nat)
    (task tfin : TaskBody) (tr : List Req) (tid : String) (r : ResultBody)
    (hsub : is2xx w.submitResp.status_code = true)
    (hbody : w.submitResp.body = some task)
    (hloop : pollLoop w fuel task 0 0 = (.exited tfin, tr))
    (hstat : tfin.task_status = some "success")
    (hid : tfin.task_id = some tid)
    (hr2 : is2xx w.resultResp.status_code = true)
    (hrb : w.resultResp.body = some r)
    (hdoc : r.document = none) :
    (convertDocument w p fuel).1 = .exc (.keyError "document") ∧
    process_files (fun _ => w) fuel [⟨some p⟩] =
      .exc (.keyError "document") := by
  have h1 : (convertDocument w p fuel).1 = .exc (.keyError "document") := by
    simp [convertDocument, hsub, hbody, hloop, hid, hr2, hrb, hdoc]
  refine ⟨h1, ?_⟩
  have hd : dispatch [(⟨some p⟩ : BFile)] 0 = ([], [(0, p)]) := by
    simp [dispatch]
  simp [process_files, hd, collect, h1]

/-- Witness for claim C10 at `nodocWorld` (result body without a
`document` key). -/
theorem missing_document_key_raises_witness :
    (convertDocument nodocWorld "a" 10).1 = .exc (.keyError "document") ∧
    process_files (fun _ => nodocWorld) 10 [⟨some "a"⟩] =
      .exc (.keyError "document") :=
  missing_document_key_raises nodocWorld "a" 10 okTask successTask
    [Req.poll 0] "t1" ⟨none⟩ (by decide) rfl (by decide) rfl rfl
    (by decide) rfl rfl

end DoclingRemote
